import Mathlib

/-!
Shallow embedding of `llm-backend/local_llm_service.py` (Kairos local LLM
service): the model registry (`load_model`), the generation pipeline
(`generate_text`), the fallback responder (`generate_fallback_response`),
the CLI entry points (`main`, the `__main__` dispatch) and the HTTP
`/generate` handler.  External collaborators (the transformers inference
library, Flask) are modelled as oracles passed in as function arguments.
-/

namespace LocalLLM

/-- Prefix test on character lists (used to embed Python's `in` substring
operator). -/
def isPrefixOfChars : List Char → List Char → Bool
  | [], _ => true
  | _ :: _, [] => false
  | a :: as, b :: bs => a == b && isPrefixOfChars as bs

/-- Substring containment on character lists: `needle` occurs somewhere in
the haystack.  The empty needle is contained in everything, matching
Python's `"" in s == True`. -/
def hasSubList (needle : List Char) : List Char → Bool
  | [] => needle.isEmpty
  | b :: bs => isPrefixOfChars needle (b :: bs) || hasSubList needle bs

/-- Embedding of Python's `needle in hay` on strings. -/
def containsSubstr (hay needle : String) : Bool :=
  hasSubList needle.data hay.data

/-- Embedding of Python's `str.lower()` (character-wise lowering; the
keyword tests in the source are all ASCII). -/
def toLowerStr (s : String) : String :=
  ⟨s.data.map Char.toLower⟩

/-- The fixed business-case template returned by
`generate_fallback_response` (transcribed verbatim from the source,
trailing spaces included). -/
def businessCaseTemplate : String :=
  "# Business Case Analysis\n\nBased on the project requirements, this initiative presents a compelling opportunity for organizational improvement. \n\n**Key Benefits:**\n- Enhanced operational efficiency through automation\n- Reduced manual effort and error rates  \n- Improved scalability and performance\n- Strategic competitive positioning\n\n**Investment Considerations:**\n- Initial implementation costs balanced by long-term savings\n- Risk mitigation through phased approach\n- Strong ROI potential based on efficiency gains\n\n**Recommendation:** Proceed with detailed planning and stakeholder alignment to maximize project success."

/-- The fixed feasibility template returned by
`generate_fallback_response` (transcribed verbatim from the source,
trailing spaces included). -/
def feasibilityTemplate : String :=
  "# Feasibility Assessment\n\nThe proposed project demonstrates strong viability across multiple dimensions:\n\n**Technical Feasibility:** High - leveraging proven technologies and methodologies\n**Financial Feasibility:** Positive - reasonable investment with measurable returns  \n**Operational Feasibility:** Strong - aligns with current capabilities and growth objectives\n**Strategic Feasibility:** Excellent - supports long-term organizational goals\n\n**Risk Factors:** Manageable through proper planning and change management\n**Timeline:** Achievable with dedicated resources and stakeholder support\n\n**Overall Assessment:** PROCEED - Project shows high probability of success with appropriate execution."

/-- The generic template returned by `generate_fallback_response` (an
f-string in the source that interpolates nothing, hence a constant). -/
def genericTemplate : String :=
  "Based on the requirements outlined, this represents a valuable initiative that can drive significant organizational benefits.\n\nKey considerations include strategic alignment, resource allocation, and implementation approach. Success will depend on effective planning, stakeholder engagement, and execution excellence.\n\nRecommend proceeding with detailed analysis and structured implementation planning."

/-- Embedding of `LocalLLMService.generate_fallback_response`: keyword
inspection of the lower-cased prompt, business case first, then
feasibility, else the generic template. -/
def generate_fallback_response (prompt : String) : String :=
  if containsSubstr (toLowerStr prompt) "business case" then businessCaseTemplate
  else if containsSubstr (toLowerStr prompt) "feasibility" then feasibilityTemplate
  else genericTemplate

/-- Embedding of Python's `str.strip()` on the character list: drop
leading and trailing whitespace. -/
def stripChars (l : List Char) : List Char :=
  ((l.dropWhile Char.isWhitespace).reverse.dropWhile Char.isWhitespace).reverse

/-- Embedding of Python's `str.strip()`. -/
def stripStr (s : String) : String :=
  ⟨stripChars s.data⟩

/-- Sampling parameters handed to the inference adapter.  `temperature`
is a Python float that the core never inspects, only passes through; it
is modelled as a rational. -/
structure GenParams where
  max_length : Nat
  temperature : ℚ
deriving Repr

/-- Outcome of one call to the adapter's text-generation callable:
either it raises (any exception) or it returns a list of responses,
each response being its `generated_text` field.  `returns []` also
covers a falsy (`None`/empty) response object. -/
inductive AdapterOutcome where
  | raises
  | returns (responses : List String)

/-- A loaded model handle as stored in `self.models[name]`: the part the
generation pipeline consumes is the `generator` callable; the tokenizer
and raw model objects are opaque to the core. -/
structure ModelHandle where
  generator : String → GenParams → AdapterOutcome

/-- Registry state of `LocalLLMService`: `self.models` (a dict keyed by
model name, embedded as an association list with unique keys; a fresh
insert prepends) and `self.current_model`. -/
structure ServiceState where
  models : List (String × ModelHandle)
  current_model : Option String

/-- `LocalLLMService.__init__`: empty mapping, no current model. -/
def initState : ServiceState :=
  { models := [], current_model := none }

/-- Embedding of `LocalLLMService.load_model`.  The adapter's whole setup
path (library import, tokenizer and model construction, pipeline
creation) is the oracle `setup`; any exception it raises is the `.error`
case.  On a cache hit no setup runs; on a fresh name the insert and the
`current_model` assignment happen only after setup succeeded, so a
failure leaves the state exactly as it was. -/
def load_model (st : ServiceState) (setup : String → Except String ModelHandle)
    (name : String) : Bool × ServiceState :=
  if (st.models.lookup name).isSome then
    (true, { st with current_model := some name })
  else
    match setup name with
    | .error _ => (false, st)
    | .ok h =>
        (true, { models := (name, h) :: st.models, current_model := some name })

/-- Embedding of `LocalLLMService.generate_text`.  The guard
`self.current_model is None or self.current_model not in self.models`
routes to the fallback; otherwise the stored generator runs: an
exception or an empty/falsy response list yields the fallback, and a
non-empty response list yields the first response's text stripped
(`.strip()`).  The method assigns to no attribute, so the state is
returned unchanged on every path. -/
def generate_text (st : ServiceState) (prompt : String) (pa : GenParams) :
    String × ServiceState :=
  match st.current_model with
  | none => (generate_fallback_response prompt, st)
  | some name =>
    match st.models.lookup name with
    | none => (generate_fallback_response prompt, st)
    | some h =>
      match h.generator prompt pa with
      | .raises => (generate_fallback_response prompt, st)
      | .returns [] => (generate_fallback_response prompt, st)
      | .returns (r :: _) => (stripStr r, st)

/-- One operation of the registry/pipeline interface (the only code that
touches `ServiceState`). -/
inductive Op where
  | load (setup : String → Except String ModelHandle) (name : String)
  | gen (prompt : String) (pa : GenParams)

/-- State transition of one operation. -/
def step (st : ServiceState) : Op → ServiceState
  | .load setup name => (load_model st setup name).2
  | .gen prompt pa => (generate_text st prompt pa).2

/-- Run a sequence of operations from a state. -/
def run (st : ServiceState) (ops : List Op) : ServiceState :=
  ops.foldl step st

/-- The registry invariant as a decidable check: the current model name,
when set, is a key of the mapping. -/
def currentInMap (st : ServiceState) : Bool :=
  match st.current_model with
  | none => true
  | some name => (st.models.lookup name).isSome

/-- Embedding of the body of `main()` after argument parsing.  The
oracles report whether `install_dependencies()` and
`load_model(args.model)` succeed; `install_flag`/`promptArg` are
`args.install` and `args.prompt`.  Returns the process exit code. -/
def mainBody (install_flag : Bool) (promptArg : Option String)
    (installOk : Bool) (loadOk : Bool) : Nat :=
  if install_flag && !installOk then 1
  else
    match promptArg with
    | some _ => if loadOk then 0 else 1
    | none => 0

/-- Embedding of the `if __name__ == "__main__"` dispatch: when the
first CLI argument is `--install`, `install_dependencies()` runs and its
result is discarded, after which the script ends normally (exit 0);
`--server` starts the blocking HTTP server and never exits (`none`);
anything else exits with `main()`'s return value. -/
def mainDispatch (argv : List String) (_installOk : Bool) (mainExit : Nat) :
    Option Nat :=
  match argv.drop 1 with
  | "--install" :: _ => some 0
  | "--server" :: _ => none
  | _ => some mainExit

/-- An HTTP response of the `/generate` handler: status code plus the
JSON body as string key/value pairs. -/
structure HttpResp where
  code : Nat
  body : List (String × String)
deriving DecidableEq

/-- A parsed `/generate` request body: each field may be absent. -/
structure GenRequest where
  prompt : Option String
  max_length : Option Nat
  temperature : Option ℚ

/-- Embedding of the Flask `/generate` handler (`start_server`'s inner
`generate_text` view): defaults `''`/`500`/`0.7`, the `if not prompt`
emptiness check (on a string, falsy means the empty string), then the
pipeline call and the 200 response. -/
def handle_generate (st : ServiceState) (req : GenRequest) : HttpResp :=
  let prompt := req.prompt.getD ""
  let max_length := req.max_length.getD 500
  let temperature := req.temperature.getD (7/10)
  if prompt == "" then
    { code := 400, body := [("error", "No prompt provided")] }
  else
    { code := 200,
      body := [("generated_text",
                 (generate_text st prompt ⟨max_length, temperature⟩).1),
               ("status", "success")] }

set_option maxRecDepth 40000

/-- C7: every prompt containing "business case" (case-insensitively) gets
a fallback text containing both "Business Case Analysis" and
"Recommendation:"; no non-business-case hypothesis is needed, so the
rule indeed wins even when the prompt also mentions feasibility. -/
theorem claim_C7 (p : String)
    (hbc : containsSubstr (toLowerStr p) "business case" = true) :
    containsSubstr (generate_fallback_response p) "Business Case Analysis" = true ∧
    containsSubstr (generate_fallback_response p) "Recommendation:" = true := by
  simp only [generate_fallback_response, hbc, if_true]
  exact ⟨by decide, by decide⟩

/-- Witness for C7 at a prompt that contains both keywords: the
business-case rule fires first. -/
theorem claim_C7_witness :
    containsSubstr (generate_fallback_response "Business case and feasibility")
      "Business Case Analysis" = true ∧
    containsSubstr (generate_fallback_response "Business case and feasibility")
      "Recommendation:" = true :=
  claim_C7 "Business case and feasibility" (by decide)

/-- C2 as stated is false: the feasibility template spells the verdict
`**Overall Assessment:** PROCEED`, so the literal substring
"Overall Assessment: PROCEED" (colon directly followed by a space and
PROCEED) does not occur in the fallback text for a feasibility prompt. -/
theorem claim_C2_counterexample :
    containsSubstr (toLowerStr "Run a feasibility check") "feasibility" = true ∧
    containsSubstr (toLowerStr "Run a feasibility check") "business case" = false ∧
    containsSubstr (generate_fallback_response "Run a feasibility check")
      "Overall Assessment: PROCEED" = false := by
  refine ⟨by decide, by decide, ?_⟩
  decide

/-- C2 amended: for prompts containing "feasibility" but not
"business case" (case-insensitively), the fallback text contains
"Feasibility Assessment" and "Overall Assessment:** PROCEED" (the colon
is followed by the Markdown bold marker before "PROCEED"). -/
theorem claim_C2 (p : String)
    (hf : containsSubstr (toLowerStr p) "feasibility" = true)
    (hbc : containsSubstr (toLowerStr p) "business case" = false) :
    containsSubstr (generate_fallback_response p) "Feasibility Assessment" = true ∧
    containsSubstr (generate_fallback_response p) "Overall Assessment:** PROCEED" = true := by
  simp only [generate_fallback_response, hbc, hf, Bool.false_eq_true, if_false, if_true]
  exact ⟨by decide, by decide⟩

/-- Witness for the amended C2 at a concrete feasibility prompt. -/
theorem claim_C2_witness :
    containsSubstr (generate_fallback_response "feasibility study")
      "Feasibility Assessment" = true ∧
    containsSubstr (generate_fallback_response "feasibility study")
      "Overall Assessment:** PROCEED" = true :=
  claim_C2 "feasibility study" (by decide) (by decide)

/-- C8: prompts containing neither keyword get the generic template,
whose text contains "Recommend proceeding with detailed analysis". -/
theorem claim_C8 (p : String)
    (hbc : containsSubstr (toLowerStr p) "business case" = false)
    (hf : containsSubstr (toLowerStr p) "feasibility" = false) :
    containsSubstr (generate_fallback_response p)
      "Recommend proceeding with detailed analysis" = true := by
  simp only [generate_fallback_response, hbc, hf, Bool.false_eq_true, if_false]
  decide

/-- Witness for C8 at a keyword-free prompt. -/
theorem claim_C8_witness :
    containsSubstr (generate_fallback_response "Summarize the meeting")
      "Recommend proceeding with detailed analysis" = true :=
  claim_C8 "Summarize the meeting" (by decide) (by decide)

/-- A handle whose generator returns a single all-whitespace response. -/
def blankHandle : ModelHandle :=
  ⟨fun _ _ => .returns [" "]⟩

/-- A registry holding `blankHandle` under the current model name. -/
def stBlank : ServiceState :=
  { models := [("m", blankHandle)], current_model := some "m" }

/-- `generate_text` assigns to no attribute: the returned state is the
input state on every path. -/
theorem generate_text_state (st : ServiceState) (prompt : String)
    (pa : GenParams) : (generate_text st prompt pa).2 = st := by
  cases hc : st.current_model with
  | none => simp [generate_text, hc]
  | some name =>
    cases hl : st.models.lookup name with
    | none => simp [generate_text, hc, hl]
    | some h =>
      cases hg : h.generator prompt pa with
      | raises => simp [generate_text, hc, hl, hg]
      | returns rs => cases rs <;> simp [generate_text, hc, hl, hg]

/-- C1 as stated is false on a blank (all-whitespace) adapter result: the
code falls back only when the response list is empty, so a generator
returning the single response " " makes `generate_text` return the empty
string, not `fallback(prompt)` (which is never empty). -/
theorem claim_C1_counterexample :
    blankHandle.generator "Draft a project plan" ⟨800, 7/10⟩ =
      .returns [" "] ∧
    stripStr " " = "" ∧
    (generate_text stBlank "Draft a project plan" ⟨800, 7/10⟩).1 = "" ∧
    generate_fallback_response "Draft a project plan" ≠ "" := by
  refine ⟨rfl, rfl, rfl, ?_⟩
  decide

/-- C1 amended: `generate_text` never raises and leaves the registry
untouched; with no current model, or a current name absent from the
mapping, it returns `fallback(prompt)`; when the adapter raises or
returns an empty/falsy response list it returns `fallback(prompt)`;
when the adapter returns a non-empty response list it returns the first
response stripped of surrounding whitespace — which is the empty string,
not the fallback, when that response is all whitespace. -/
theorem claim_C1 (st : ServiceState) (prompt : String) (pa : GenParams) :
    (generate_text st prompt pa).2 = st ∧
    ((st.current_model = none ∨
        ∃ name, st.current_model = some name ∧ st.models.lookup name = none) →
      (generate_text st prompt pa).1 = generate_fallback_response prompt) ∧
    (∀ name h, st.current_model = some name → st.models.lookup name = some h →
      ((h.generator prompt pa = .raises ∨ h.generator prompt pa = .returns []) →
        (generate_text st prompt pa).1 = generate_fallback_response prompt) ∧
      (∀ r rs, h.generator prompt pa = .returns (r :: rs) →
        (generate_text st prompt pa).1 = stripStr r)) := by
  refine ⟨generate_text_state st prompt pa, ?_, ?_⟩
  · rintro (hc | ⟨name, hc, hl⟩)
    · simp [generate_text, hc]
    · simp [generate_text, hc, hl]
  · intro name h hc hl
    constructor
    · rintro (hg | hg) <;> simp [generate_text, hc, hl, hg]
    · intro r rs hg
      simp [generate_text, hc, hl, hg]

/-- Witness for the amended C1: on `stBlank` the adapter returns the
blank response " " and the pipeline returns it stripped, i.e. "". -/
theorem claim_C1_witness :
    (generate_text stBlank "Draft a project plan" ⟨800, 7/10⟩).1 = "" :=
  (((claim_C1 stBlank "Draft a project plan" ⟨800, 7/10⟩).2.2 "m" blankHandle
      rfl rfl).2 " " [] rfl).trans (by decide)

/-- An adapter setup oracle that always fails. -/
def failSetup : String → Except String ModelHandle :=
  fun _ => .error "setup failed"

/-- An adapter setup oracle that always succeeds. -/
def okSetup : String → Except String ModelHandle :=
  fun _ => .ok blankHandle

/-- C4: loading a name not yet in the mapping with a failing adapter
setup returns failure and the whole registry state — mapping and
current-model pointer — is exactly the state before the call. -/
theorem claim_C4 (st : ServiceState) (setup : String → Except String ModelHandle)
    (name : String) (e : String)
    (hfresh : st.models.lookup name = none) (hfail : setup name = .error e) :
    load_model st setup name = (false, st) := by
  unfold load_model
  rw [hfresh, hfail]
  rfl

/-- Witness for C4: a failing setup on the empty registry. -/
theorem claim_C4_witness :
    load_model initState failSetup "microsoft/DialoGPT-small" =
      (false, initState) :=
  claim_C4 initState failSetup "microsoft/DialoGPT-small" "setup failed" rfl rfl

/-- C5: a cache hit runs no adapter setup (the result is the same for
every setup oracle), returns success, sets the current model name and
leaves the mapping untouched; consequently, after a successful fresh
load, a second load of the same name consults no setup oracle at all. -/
theorem claim_C5 (st : ServiceState) (name : String) :
    (∀ h, st.models.lookup name = some h →
      ∀ setup, load_model st setup name =
        (true, { st with current_model := some name })) ∧
    (∀ setup h, st.models.lookup name = none → setup name = .ok h →
      ∀ setup2, load_model (load_model st setup name).2 setup2 name =
        (true, (load_model st setup name).2)) := by
  constructor
  · intro h hmem setup
    unfold load_model
    rw [hmem]
    rfl
  · intro setup h hfresh hok setup2
    unfold load_model
    rw [hfresh, hok]
    simp [List.lookup]

/-- Witness for C5: a cache hit on a one-entry registry answers success
without consulting the (failing) setup oracle, and a fresh successful
load followed by a reload of the same name does likewise. -/
theorem claim_C5_witness :
    load_model { models := [("m", blankHandle)], current_model := none }
        failSetup "m" =
      (true, { models := [("m", blankHandle)], current_model := some "m" }) ∧
    load_model (load_model initState okSetup "m").2 failSetup "m" =
      (true, (load_model initState okSetup "m").2) :=
  ⟨(claim_C5 { models := [("m", blankHandle)], current_model := none } "m").1
      blankHandle rfl failSetup,
   (claim_C5 initState "m").2 okSetup blankHandle rfl rfl failSetup⟩

/-- One step preserves the registry invariant. -/
theorem currentInMap_step (st : ServiceState) (op : Op)
    (h : currentInMap st = true) : currentInMap (step st op) = true := by
  cases op with
  | gen prompt pa =>
    show currentInMap (generate_text st prompt pa).2 = true
    rw [generate_text_state]
    exact h
  | load setup name =>
    show currentInMap (load_model st setup name).2 = true
    cases hmem : (st.models.lookup name).isSome with
    | true =>
      simp [load_model, hmem, currentInMap]
    | false =>
      cases hs : setup name with
      | error e => simpa [load_model, hmem, hs] using h
      | ok hd => simp [load_model, hmem, hs, currentInMap, List.lookup]

/-- C6: in every state reachable from the initial state by load and
generate operations, a set current-model name is a key of the mapping. -/
theorem claim_C6 (ops : List Op) : currentInMap (run initState ops) = true := by
  suffices gen : ∀ l st, currentInMap st = true → currentInMap (run st l) = true from
    gen ops initState rfl
  intro l
  induction l with
  | nil => intro st h; exact h
  | cons op t ih =>
    intro st h
    exact ih (step st op) (currentInMap_step st op h)

/-- C3: with `--install` as the first CLI argument and a failing
installation, the `__main__` dispatch calls `install_dependencies()`,
discards its result and lets the script end normally: the process exits
0 even though `main()`'s own body would have returned 1 for the same
failure.  The claim (exit code 1 on installation failure) matches
`main()` but not the dispatch actually taken. -/
theorem claim_C3 :
    mainDispatch ["local_llm_service.py", "--install"] false
      (mainBody true none false true) = some 0 ∧
    mainBody true none false true = 1 :=
  ⟨rfl, rfl⟩

/-- The `/generate` handler's 200 branch: a present, non-empty prompt
passes the emptiness check and the pipeline result is returned. -/
theorem handle_generate_nonempty (st : ServiceState) (req : GenRequest)
    (p : String) (hp : req.prompt = some p) (hne : p ≠ "") :
    handle_generate st req =
      { code := 200,
        body := [("generated_text",
                   (generate_text st p
                     ⟨req.max_length.getD 500, req.temperature.getD (7/10)⟩).1),
                 ("status", "success")] } := by
  simp [handle_generate, hp, hne]

/-- C9: the `/generate` handler answers 400 with the error body when the
prompt field is missing or the empty string, and otherwise 200 with the
pipeline's text and status "success" (with defaults 500 and 0.7 for the
optional fields). -/
theorem claim_C9 (st : ServiceState) (req : GenRequest) :
    ((req.prompt = none ∨ req.prompt = some "") →
      handle_generate st req =
        { code := 400, body := [("error", "No prompt provided")] }) ∧
    (∀ p, req.prompt = some p → p ≠ "" →
      handle_generate st req =
        { code := 200,
          body := [("generated_text",
                     (generate_text st p
                       ⟨req.max_length.getD 500, req.temperature.getD (7/10)⟩).1),
                   ("status", "success")] }) := by
  constructor
  · rintro (hp | hp) <;> simp [handle_generate, hp]
  · exact handle_generate_nonempty st req

/-- Witness for C9: the empty body `{}` gets 400, and a "hello" prompt
gets 200 with the pipeline result. -/
theorem claim_C9_witness :
    handle_generate initState ⟨none, none, none⟩ =
      { code := 400, body := [("error", "No prompt provided")] } ∧
    handle_generate initState ⟨some "hello", none, none⟩ =
      { code := 200,
        body := [("generated_text",
                   (generate_text initState "hello" ⟨500, 7/10⟩).1),
                 ("status", "success")] } :=
  ⟨(claim_C9 initState ⟨none, none, none⟩).1 (Or.inl rfl),
   (claim_C9 initState ⟨some "hello", none, none⟩).2 "hello" rfl (by decide)⟩

/-- C10: a non-empty all-whitespace prompt such as " " passes the
`if not prompt` check (only the empty string is falsy), so the handler
does not answer 400: it invokes the pipeline and answers 200 with
status "success". -/
theorem claim_C10 (st : ServiceState) (req : GenRequest) (p : String)
    (hp : req.prompt = some p) (hne : p ≠ "")
    (hws : p.data.all Char.isWhitespace = true) :
    (handle_generate st req).code ≠ 400 ∧
    handle_generate st req =
      { code := 200,
        body := [("generated_text",
                   (generate_text st p
                     ⟨req.max_length.getD 500, req.temperature.getD (7/10)⟩).1),
                 ("status", "success")] } := by
  rw [handle_generate_nonempty st req p hp hne]
  refine ⟨?_, rfl⟩
  show (200 : Nat) ≠ 400
  decide

/-- Witness for C10 at the prompt " " on the empty registry. -/
theorem claim_C10_witness :
    (handle_generate initState ⟨some " ", none, none⟩).code ≠ 400 ∧
    handle_generate initState ⟨some " ", none, none⟩ =
      { code := 200,
        body := [("generated_text",
                   (generate_text initState " " ⟨500, 7/10⟩).1),
                 ("status", "success")] } :=
  claim_C10 initState ⟨some " ", none, none⟩ " " rfl (by decide) (by decide)

end LocalLLM
